import Mathlib

/-!
Shallow embedding of the arch-installer storage-provisioning code
(src/main.rs, src/device.rs, src/filesystem/{mod,fat,zfs}.rs) in Lean 4,
with theorems checking the natural-language specification's claims.

External effects are modelled explicitly:
* process spawning is an oracle `Spawner` (command name and argument list to
  spawn result), mirroring `std::process::Command::output()`;
* the sysfs metadata tree is a finite map `SysFs` with the three read
  operations the code uses (`fs::read_to_string`, `fs::read_link`,
  `fs::read_dir`);
* Rust string helpers (`str::trim`, `str::parse::<usize>`) and the byte-wise
  path ordering are re-implemented structurally over `List Char` so that all
  definitions evaluate inside the kernel;
* Rust's stable `sort_by` is modelled by `List.insertionSort`, which is also
  stable, with the relation induced by the comparator in the source.
-/

deriving instance DecidableEq for Except

namespace ArchInstaller

/-! ## String primitives (models of the Rust standard-library helpers) -/

/-- Whitespace test used by `trim` and `tokenize` (covers the characters that
occur in the modelled data). -/
def isSpace (c : Char) : Bool :=
  c == ' ' || c == '\n' || c == '\t' || c == '\r'

def trimChars (cs : List Char) : List Char :=
  ((cs.dropWhile isSpace).reverse.dropWhile isSpace).reverse

/-- Model of Rust `str::trim`. -/
def trim (s : String) : String :=
  String.mk (trimChars s.data)

def digitVal (c : Char) : Option Nat :=
  if c.toNat ≥ 48 && c.toNat ≤ 57 then some (c.toNat - 48) else none

def parseNatAux : List Char → Nat → Option Nat
  | [], acc => some acc
  | c :: cs, acc =>
    match digitVal c with
    | some d => parseNatAux cs (acc * 10 + d)
    | none => none

/-- Model of Rust `str::parse::<usize>()`: all-digit, non-empty strings only. -/
def parseNat (s : String) : Option Nat :=
  match s.data with
  | [] => none
  | cs => parseNatAux cs 0

/-- Split a string on whitespace, dropping empty fields (used to analyse the
`parted` script argument). -/
def tokenizeAux : List Char → List Char → List String
  | [], [] => []
  | [], acc => [String.mk acc.reverse]
  | c :: cs, acc =>
    if isSpace c then
      match acc with
      | [] => tokenizeAux cs []
      | _ => String.mk acc.reverse :: tokenizeAux cs []
    else tokenizeAux cs (c :: acc)

def tokenize (s : String) : List String :=
  tokenizeAux s.data []

/-- Byte-wise lexicographic strict order on strings, the order `PathBuf`'s
`Ord` instance induces on the ASCII paths appearing here. -/
def strLtB : List Char → List Char → Bool
  | [], [] => false
  | [], _ :: _ => true
  | _ :: _, [] => false
  | a :: as, b :: bs =>
    if a.toNat < b.toNat then true
    else if b.toNat < a.toNat then false
    else strLtB as bs

/-! ## The command executor (`exec`, main.rs lines 288-300) -/

/-- Captured output of a finished external process: `status.success()` plus
the captured streams. -/
structure Output where
  success : Bool
  stdout : String
  stderr : String
deriving DecidableEq, Repr

/-- Spawn oracle: what `process::Command::new(cmd).args(args).output()`
returns for a given command and arguments.  `.error` is a failed spawn. -/
def Spawner : Type :=
  String → List String → Except String Output

/-- The contextual message `with_context` attaches to a failed spawn,
naming the command and arguments attempted. -/
def execContext (c : String) (args : List String) (e : String) : String :=
  e ++ ": " ++ c ++ " " ++ String.intercalate " " args

/-- `exec` (main.rs lines 288-300): an empty command list is the
"missing command" error; otherwise spawn and return the captured output
unconditionally — the exit status is not inspected here. -/
def exec (spawn : Spawner) (cmd : List String) : Except String Output :=
  match cmd with
  | [] => .error "missing command"
  | c :: args =>
    match spawn c args with
    | .ok out => .ok out
    | .error e => .error (execContext c args e)

/-! ## Devices and the sysfs model (device.rs) -/

/-- `Device` (device.rs lines 8-12). -/
structure Device where
  name : String
  bytes : Nat
deriving DecidableEq, Repr

/-- `Device::dev` (device.rs lines 15-17). -/
def Device.dev (d : Device) : String :=
  "/dev/" ++ d.name

/-- Read errors distinguished by the code: `ErrorKind::NotFound`, any other
io error, and a failed integer parse. -/
inductive RErr
  | notFound
  | parseFail (s : String)
  | other (msg : String)
deriving DecidableEq, Repr

/-- Finite model of the sysfs tree: regular-file reads (which may themselves
be stored failures), symlink targets, and directory listings.  A path absent
from the relevant map reads as `ErrorKind::NotFound`. -/
structure SysFs where
  files : List (String × Except RErr String)
  links : List (String × String)
  dirs : List (String × List String)

/-- `fs::read_to_string`. -/
def readToString (fs : SysFs) (path : String) : Except RErr String :=
  match fs.files.lookup path with
  | some r => r
  | none => .error .notFound

/-- `fs::read_link`. -/
def readLink (fs : SysFs) (path : String) : Except RErr String :=
  match fs.links.lookup path with
  | some t => .ok t
  | none => .error .notFound

/-- `fs::read_dir`, yielding entry names in discovery order. -/
def readDir (fs : SysFs) (path : String) : Except RErr (List String) :=
  match fs.dirs.lookup path with
  | some es => .ok es
  | none => .error .notFound

/-- Loop body of `Device::partitions` (device.rs lines 45-57).  For each
sibling entry: follow its symlink, read the target, parse the partition
index (`NotFound` skips the entry, any other read failure aborts, a parse
failure aborts) — and, exactly as in the source, never extend the
accumulator `partitions`. -/
def partitionsLoop (fs : SysFs) (dir : String) (partitions : List Device) :
    List String → Except RErr (List Device)
  | [] => .ok partitions
  | e :: rest =>
    match readLink fs (dir ++ "/" ++ e) with
    | .error er => .error er
    | .ok target =>
      match readToString fs target with
      | .ok p =>
        match parseNat (trim p) with
        | some _partition => partitionsLoop fs dir partitions rest
        | none => .error (.parseFail (trim p))
      | .error .notFound => partitionsLoop fs dir partitions rest
      | .error er => .error er

/-- `Device::partitions` (device.rs lines 32-60): read the device id, follow
the subsystem link, iterate the sibling entries. -/
def Device.partitions (fs : SysFs) (d : Device) : Except RErr (List Device) :=
  match readToString fs ("/sys/block/" ++ d.name ++ "/dev") with
  | .error er => .error er
  | .ok idRaw =>
    let _id := trim idRaw
    match readLink fs ("/sys/class/block/" ++ d.name ++ "/subsystem") with
    | .error er => .error er
    | .ok path =>
      match readDir fs path with
      | .error er => .error er
      | .ok entries => partitionsLoop fs path [] entries

/-- Loop body of `Device::list` (device.rs lines 66-92): skip hidden
entries, read and parse the declared size, resolve the device id, read and
parse the authoritative size keyed by the id, skip zero-size entries, push
the rest.  Every read or parse failure propagates via `?`. -/
def listLoop (fs : SysFs) (acc : List Device) :
    List String → Except RErr (List Device)
  | [] => .ok acc
  | e :: rest =>
    match readToString fs ("/sys/block/" ++ e ++ "/hidden") with
    | .error er => .error er
    | .ok hidden =>
      if trim hidden == "1" then listLoop fs acc rest
      else
        match readToString fs ("/sys/block/" ++ e ++ "/size") with
        | .error er => .error er
        | .ok sizeRaw =>
          match parseNat (trim sizeRaw) with
          | none => .error (.parseFail (trim sizeRaw))
          | some _size =>
            match readToString fs ("/sys/block/" ++ e ++ "/dev") with
            | .error er => .error er
            | .ok devRaw =>
              match readToString fs ("/sys/dev/block/" ++ trim devRaw ++ "/size") with
              | .error er => .error er
              | .ok bytesRaw =>
                match parseNat (trim bytesRaw) with
                | none => .error (.parseFail (trim bytesRaw))
                | some bytes =>
                  if bytes < 1 then listLoop fs acc rest
                  else listLoop fs (acc ++ [{ name := e, bytes := bytes }]) rest

/-- The order induced by the comparator `|a, b| b.bytes.cmp(&a.bytes)` of
`Device::list`'s final `sort_by`: `a` may precede `b` iff
`b.bytes ≤ a.bytes`. -/
def rBytesDesc (a b : Device) : Prop :=
  b.bytes ≤ a.bytes

instance : DecidableRel rBytesDesc :=
  fun a b => inferInstanceAs (Decidable (b.bytes ≤ a.bytes))

instance : IsTotal Device rBytesDesc :=
  ⟨fun a b => Nat.le_total b.bytes a.bytes⟩

instance : IsTrans Device rBytesDesc :=
  ⟨fun _ _ _ hab hbc => Nat.le_trans hbc hab⟩

/-- `Device::list` (device.rs lines 62-96). -/
def Device.list (fs : SysFs) : Except RErr (List Device) :=
  match readDir fs "/sys/block" with
  | .error er => .error er
  | .ok entries =>
    match listLoop fs [] entries with
    | .error er => .error er
    | .ok out => .ok (List.insertionSort rBytesDesc out)

/-! ## `devices()` (main.rs lines 233-268) -/

/-- Loop body of `devices()` (main.rs lines 237-264): same reads as
`Device::list`, but it pushes the pair `("/dev/" ++ name, size)`. -/
def devicesLoop (fs : SysFs) (acc : List (String × Nat)) :
    List String → Except RErr (List (String × Nat))
  | [] => .ok acc
  | e :: rest =>
    match readToString fs ("/sys/block/" ++ e ++ "/hidden") with
    | .error er => .error er
    | .ok hidden =>
      if trim hidden == "1" then devicesLoop fs acc rest
      else
        match readToString fs ("/sys/block/" ++ e ++ "/size") with
        | .error er => .error er
        | .ok sizeRaw =>
          match parseNat (trim sizeRaw) with
          | none => .error (.parseFail (trim sizeRaw))
          | some _size =>
            match readToString fs ("/sys/block/" ++ e ++ "/dev") with
            | .error er => .error er
            | .ok devRaw =>
              match readToString fs ("/sys/dev/block/" ++ trim devRaw ++ "/size") with
              | .error er => .error er
              | .ok bytesRaw =>
                match parseNat (trim bytesRaw) with
                | none => .error (.parseFail (trim bytesRaw))
                | some size =>
                  if size < 1 then devicesLoop fs acc rest
                  else devicesLoop fs (acc ++ [("/dev/" ++ e, size)]) rest

/-- The order induced by the comparator `|a, b| b.cmp(a)` of `devices()`'s
final `sort_by`: full-tuple `(PathBuf, usize)` comparison, descending — the
path component is compared first. -/
def rTupleDesc (a b : String × Nat) : Prop :=
  strLtB b.1.data a.1.data = true ∨ (b.1 = a.1 ∧ b.2 ≤ a.2)

instance : DecidableRel rTupleDesc :=
  fun a b =>
    inferInstanceAs (Decidable (strLtB b.1.data a.1.data = true ∨ (b.1 = a.1 ∧ b.2 ≤ a.2)))

/-- `devices()` (main.rs lines 233-268). -/
def devices (fs : SysFs) : Except RErr (List (String × Nat)) :=
  match readDir fs "/sys/block" with
  | .error er => .error er
  | .ok entries =>
    match devicesLoop fs [] entries with
    | .error er => .error er
    | .ok out => .ok (List.insertionSort rTupleDesc out)

/-! ## Filesystem backends (src/filesystem/) -/

/-- The three backend variants implemented under src/filesystem/
(`Ext4`, `FAT32`, `ZFS`). -/
inductive Backend
  | ext4
  | fat32
  | zfs
deriving DecidableEq, Repr

/-- `filesystem::from_str` (filesystem/mod.rs lines 25-30): only the exact
string "zfs" yields a backend. -/
def from_str (s : String) : Except String Backend :=
  match s with
  | "zfs" => .ok .zfs
  | _ => .error "unknown fs"

/-- The command `FAT32::init` runs (filesystem/fat.rs line 10), argument
strings verbatim from the source. -/
def fat32InitCmd (partition : Device) : List String :=
  ["mkfs.vfat", "-F32", "of=" ++ partition.dev]

/-- `FAT32::init` (filesystem/fat.rs lines 9-21). -/
def fat32Init (spawn : Spawner) (partition : Device) : Except String Unit :=
  match exec spawn (fat32InitCmd partition) with
  | .error e => .error e
  | .ok out =>
    if !out.success then
      .error ("error formatting filesystem " ++ partition.dev ++ " as FAT32")
    else .ok ()

/-- The `dd` command `ZFS::init` runs first (filesystem/zfs.rs lines 28-34):
512-byte blocks, 20480 of them, from /dev/urandom onto the partition. -/
def ddCmd (partition : Device) : List String :=
  ["dd", "if=/dev/urandom", "of=" ++ partition.dev, "bs=512", "count=20480"]

/-- The pool-creation command `ZFS::init` runs second (filesystem/zfs.rs
lines 44-52): pool name `zroot`, mountpoint `none`. -/
def zpoolCreateCmd (partition : Device) : List String :=
  ["zpool", "create", "-f", "zroot", "-m", "none", partition.dev]

/-- `ZFS::init` (filesystem/zfs.rs lines 27-63), paired with the list of
commands it handed to `exec`, in order. -/
def zfsInit (spawn : Spawner) (partition : Device) :
    Except String Unit × List (List String) :=
  match exec spawn (ddCmd partition) with
  | .error e => (.error e, [ddCmd partition])
  | .ok out =>
    if !out.success then
      (.error ("error using dd to overwrite beginning of " ++ partition.dev),
       [ddCmd partition])
    else
      match exec spawn (zpoolCreateCmd partition) with
      | .error e => (.error e, [ddCmd partition, zpoolCreateCmd partition])
      | .ok out2 =>
        if !out2.success then
          (.error ("error initializing zpool on " ++ partition.dev),
           [ddCmd partition, zpoolCreateCmd partition])
        else (.ok (), [ddCmd partition, zpoolCreateCmd partition])

/-! ## The parted invocation (main.rs lines 194-209) -/

/-- The script argument passed to `parted --script`, after Rust's
backslash-newline string continuations are resolved. -/
def partedScript : String :=
  "\n  mklabel gpt mkpart ESP fat32 1Mib 2GiB set 1 boot on mkpart primary ext4 2GiB 100%"

/-- The full `parted` command line of the partitioning step. -/
def partedCmd (device : String) : List String :=
  ["parted", "--script", device, "--", partedScript]

/-- One `mkpart` sub-command: name, filesystem type, start, end. -/
structure PartedPart where
  pname : String
  fstype : String
  start : String
  stop : String
deriving DecidableEq, Repr

/-- One `set <n> <flag> <state>` sub-command. -/
structure PartedSetCmd where
  num : String
  flag : String
  state : String
deriving DecidableEq, Repr

/-- The partitions a parted script requests: each `mkpart` sub-command
creates one partition, numbered in order of appearance. -/
def partedParts : List String → List PartedPart
  | "mkpart" :: n :: f :: s :: e :: rest => ⟨n, f, s, e⟩ :: partedParts rest
  | _ :: rest => partedParts rest
  | [] => []

/-- The flag assignments a parted script requests. -/
def partedSets : List String → List PartedSetCmd
  | "set" :: n :: f :: s :: rest => ⟨n, f, s⟩ :: partedSets rest
  | _ :: rest => partedSets rest
  | [] => []

/-- The disk labels a parted script requests. -/
def partedLabels : List String → List String
  | "mklabel" :: t :: rest => t :: partedLabels rest
  | _ :: rest => partedLabels rest
  | [] => []

/-! ## The orchestrator `run` (main.rs lines 100-212) -/

/-- `Filesystem` (main.rs lines 44-48). -/
inductive Filesystem
  | ext4
  | zfs
deriving DecidableEq, Repr

/-- `Filesystem::from_str` (main.rs lines 63-73): the CLI-level parser,
unlike `filesystem::from_str`, accepts "ext4" as well. -/
def Filesystem.fromStr (s : String) : Except String Filesystem :=
  match s with
  | "ext4" => .ok .ext4
  | "zfs" => .ok .zfs
  | _ => .error "unknown fs"

/-- `Opt` (main.rs lines 14-42), after CLI parsing. -/
structure Opt where
  filesystem : Option Filesystem
  clean : Bool
  hostname : Option String
  wifi : Option Bool
  username : Option String
  device : Option String
  dry_run : Bool

/-- Oracle for the interactive prompts (`select`, `input`, `confirm`) plus
the sysfs tree `devices()` reads. -/
structure Env where
  selectIdx : String → List String → Except RErr Nat
  inputStr : String → Except RErr String
  confirmAns : String → Except RErr Bool
  sysfs : SysFs

/-- How the input-resolution phase of `run` can end early: a propagated
error, or a Rust panic (out-of-bounds indexing of a selection result). -/
inductive Abort
  | errored (e : RErr)
  | panicked (msg : String)
deriving Repr

/-- The configuration values `run` has resolved by main.rs line 148. -/
structure ResolvedCfg where
  filesystem : Filesystem
  clean : Bool
  hostname : String
  wifi : Bool
  user : String
  device : String
deriving Repr

/-- The input-resolution phase of `run` (main.rs lines 102-148): each field
comes from the parsed options or an interactive prompt; the device list
prompt draws on `devices()`.  No external command is executed and no
mutation happens here. -/
def resolveInputs (opt : Opt) (env : Env) : Except Abort ResolvedCfg := do
  let filesystem ←
    match opt.filesystem with
    | some f => pure f
    | none =>
      let options : List Filesystem := [.zfs]
      match env.selectIdx "What filesystem would you like to use?" ["zfs"] with
      | .error e => Except.error (.errored e)
      | .ok i =>
        match options.get? i with
        | some f => pure f
        | none => Except.error (.panicked "index out of bounds")
  let clean := opt.clean
  let hostname ←
    match opt.hostname with
    | some h => pure h
    | none =>
      match env.inputStr "What should the hostname be?" with
      | .error e => Except.error (.errored e)
      | .ok h => pure h
  let wifi ←
    match opt.wifi with
    | some w => pure w
    | none =>
      match env.confirmAns "Would you like to configured WiFi?" with
      | .error e => Except.error (.errored e)
      | .ok w => pure w
  let user ←
    match opt.username with
    | some u => pure u
    | none =>
      match env.inputStr "Default username?" with
      | .error e => Except.error (.errored e)
      | .ok u => pure u
  let device ←
    match opt.device with
    | some d => pure d
    | none =>
      match devices env.sysfs with
      | .error e => Except.error (.errored e)
      | .ok dev =>
        match env.selectIdx "Select installation device"
            (dev.map fun pb => pb.1 ++ " " ++ toString pb.2) with
        | .error e => Except.error (.errored e)
        | .ok i =>
          match dev.get? i with
          | some d => pure d.1
          | none => Except.error (.panicked "index out of bounds")
  return { filesystem, clean, hostname, wifi, user, device }

/-- One observable step of the destructive part of the workflow: an external
command handed to `exec`, or the EFI boot-mode check (`assert_efi`, a
metadata read). -/
inductive Step
  | execCmd (cmd : List String)
  | assertEfi
deriving DecidableEq, Repr

/-- How a call to `run` ends. -/
inductive RunResult
  | finished
  | errored (e : RErr)
  | panicked (msg : String)
deriving Repr

/-- `run` (main.rs lines 100-155): resolve the inputs, return early for a
dry run, and otherwise hit the unconditional `panic!("safety third!")` at
line 155.  The returned list is the sequence of `Step`s performed, which is
empty on every path. -/
def run (opt : Opt) (env : Env) : RunResult × List Step :=
  match resolveInputs opt env with
  | .error (.errored e) => (.errored e, [])
  | .error (.panicked m) => (.panicked m, [])
  | .ok _cfg =>
    if opt.dry_run then (.finished, [])
    else (.panicked "safety third!", [])

/-- The three teardown commands of `cleanup` (main.rs lines 278-286). -/
def cleanupCmds : List (List String) :=
  [["umount", "/mnt/boot"], ["zfs", "umount", "-a"], ["zpool", "destroy", "zroot"]]

def modprobeCmd : List String :=
  ["modprobe", "zfs"]

def MIRRORLIST_URL : String :=
  "https://www.archlinux.org/mirrorlist/?country=US&protocol=https&use_mirror_status=on"

/-- A shell single-quote character (written via its code point). -/
def sq : String :=
  String.singleton (Char.ofNat 39)

/-- The shell pipeline of the mirror-ranking step (main.rs lines 176-179). -/
def mirrorShell : String :=
  "curl -s " ++ MIRRORLIST_URL ++ " | sed -e " ++ sq ++ "s/^#Server/Server/" ++ sq
    ++ " -e " ++ sq ++ "/^#/d" ++ sq ++ " | rankmirrors -n 5 - > /etc/pacman.d/mirrorlist"

def mirrorCmd : List String :=
  ["bash", "-c", mirrorShell]

def ntpCmd : List String :=
  ["timedatectl", "set-ntp", "true"]

/-- Tail of the step sequence after the mirror-ranking stage: the NTP
command, then (if it succeeded) the partitioning command. -/
def postMirrorSteps (device : String) (sp : List String → Bool) : List Step :=
  Step.execCmd ntpCmd :: (if sp ntpCmd then [Step.execCmd (partedCmd device)] else [])

/-- The sequence of `Step`s the statements after the panic (main.rs lines
157-211) would perform, in source order, as a function of the `clean` flag,
the EFI check outcome, the target device and a success oracle `sp` for the
executed commands; the sequence is truncated at the first failing gate,
exactly as the early returns in the source truncate it.  `run` never reaches
this code. -/
def postPanicTrace (clean efiOk : Bool) (device : String)
    (sp : List String → Bool) : List Step :=
  (if clean then cleanupCmds.map Step.execCmd else []) ++
  Step.assertEfi ::
  (if efiOk then
    Step.execCmd modprobeCmd ::
    (if sp modprobeCmd then
      (if clean then postMirrorSteps device sp
       else
        Step.execCmd mirrorCmd ::
        (if sp mirrorCmd then postMirrorSteps device sp else []))
     else [])
   else [])

/-- The step predicate "is not the EFI check", for locating the EFI check in
a trace. -/
def notAssertEfi : Step → Bool
  | Step.assertEfi => false
  | _ => true

/-! ## Concrete fixtures used by counterexamples and witnesses -/

/-- A sysfs tree where device `sda` has exactly one sibling block entry,
`sda1`, whose partition-index attribute reads as "1". -/
def partFs : SysFs where
  files :=
    [("/sys/block/sda/dev", .ok "8:0"),
     ("/sys/devices/pci/sda/sda1", .ok "1")]
  links :=
    [("/sys/class/block/sda/subsystem", "/sys/class/block"),
     ("/sys/class/block/sda1", "/sys/devices/pci/sda/sda1")]
  dirs := [("/sys/class/block", ["sda1"])]

/-- A sysfs tree with two candidate entries: `sda` lacks the `hidden`
attribute entirely, while `sdb` is complete, visible and non-empty. -/
def hiddenMissingFs : SysFs where
  files :=
    [("/sys/block/sdb/hidden", .ok "0"),
     ("/sys/block/sdb/size", .ok "2000"),
     ("/sys/block/sdb/dev", .ok "8:16"),
     ("/sys/dev/block/8:16/size", .ok "2000")]
  links := []
  dirs := [("/sys/block", ["sda", "sdb"])]

/-- A sysfs tree whose single entry's `hidden` attribute read fails with an
io error other than `NotFound`. -/
def ioErrFs : SysFs where
  files := [("/sys/block/sda/hidden", .error (.other "input output error"))]
  links := []
  dirs := [("/sys/block", ["sda"])]

/-- A sysfs tree with two visible devices: `nvme0n1` of size 100 and `sda`
of size 5, discovered in that order. -/
def twoDevFs : SysFs where
  files :=
    [("/sys/block/nvme0n1/hidden", .ok "0"),
     ("/sys/block/nvme0n1/size", .ok "100"),
     ("/sys/block/nvme0n1/dev", .ok "259:0"),
     ("/sys/dev/block/259:0/size", .ok "100"),
     ("/sys/block/sda/hidden", .ok "0"),
     ("/sys/block/sda/size", .ok "5"),
     ("/sys/block/sda/dev", .ok "8:0"),
     ("/sys/dev/block/8:0/size", .ok "5")]
  links := []
  dirs := [("/sys/block", ["nvme0n1", "sda"])]

/-- A spawner on which every process starts and exits with a failure
status. -/
def spawnAllFail : Spawner :=
  fun _ _ => .ok { success := false, stdout := "", stderr := "" }

/-- A spawner on which every process starts and succeeds with empty
output. -/
def spawnAllOk : Spawner :=
  fun _ _ => .ok { success := true, stdout := "", stderr := "" }

/-- A spawner mimicking `echo true`. -/
def spawnEcho : Spawner :=
  fun _ _ => .ok { success := true, stdout := "true\n", stderr := "" }

/-- A fully non-interactive option set: every value supplied, dry-run off. -/
def optFull : Opt where
  filesystem := some .zfs
  clean := false
  hostname := some "arch"
  wifi := some false
  username := some "user1"
  device := some "/dev/sda"
  dry_run := false

/-- An environment whose prompts all fail (never consulted for `optFull`). -/
def envNoTty : Env where
  selectIdx := fun _ _ => .error (.other "not a tty")
  inputStr := fun _ => .error (.other "not a tty")
  confirmAns := fun _ => .error (.other "not a tty")
  sysfs := { files := [], links := [], dirs := [] }

end ArchInstaller

namespace ArchInstaller

/-! ## General lemmas -/

/-- Inserting an element satisfying `p` leaves it in front of every
`p`-element it is `r`-below. -/
theorem filter_orderedInsert_pos {α : Type} (r : α → α → Prop) [DecidableRel r]
    (p : α → Bool) (x : α) (hx : p x = true) :
    ∀ L : List α, (∀ y ∈ L, p y = true → r x y) →
      (List.orderedInsert r x L).filter p = x :: L.filter p := by
  intro L
  induction L with
  | nil =>
    intro _
    simp [List.orderedInsert, hx]
  | cons y ys ih =>
    intro h
    by_cases hr : r x y
    · simp [List.orderedInsert, hr, List.filter_cons, hx]
    · have hy : p y = false := by
        cases hpy : p y
        · rfl
        · exact absurd (h y (List.mem_cons_self y ys) hpy) hr
      simp only [List.orderedInsert, if_neg hr, List.filter_cons, hy, ite_false,
        Bool.false_eq_true]
      rw [ih (fun z hz hpz => h z (List.mem_cons_of_mem y hz) hpz)]

/-- Inserting an element not satisfying `p` does not change the
`p`-filtered list. -/
theorem filter_orderedInsert_neg {α : Type} (r : α → α → Prop) [DecidableRel r]
    (p : α → Bool) (x : α) (hx : p x = false) :
    ∀ L : List α, (List.orderedInsert r x L).filter p = L.filter p := by
  intro L
  induction L with
  | nil =>
    simp [List.orderedInsert, hx]
  | cons y ys ih =>
    by_cases hr : r x y
    · simp [List.orderedInsert, hr, List.filter_cons, hx]
    · simp only [List.orderedInsert, if_neg hr, List.filter_cons]
      cases hpy : p y <;> simp [hpy, ih]

/-- Stability of `insertionSort`, filter form: when all `p`-elements are
mutually `r`-related, sorting does not reorder them. -/
theorem filter_insertionSort {α : Type} (r : α → α → Prop) [DecidableRel r]
    (p : α → Bool) (h : ∀ a b, p a = true → p b = true → r a b) :
    ∀ l : List α, (List.insertionSort r l).filter p = l.filter p := by
  intro l
  induction l with
  | nil => simp [List.insertionSort]
  | cons x xs ih =>
    cases hx : p x
    · rw [List.insertionSort, filter_orderedInsert_neg r p x hx, ih, List.filter_cons]
      simp [hx]
    · rw [List.insertionSort,
        filter_orderedInsert_pos r p x hx _ (fun y _ hy => h x y hx hy), ih,
        List.filter_cons]
      simp [hx]

/-- Every device the enumeration loop of `Device::list` adds to the
accumulator was visible (its hidden attribute read "not 1") and had a
resolved size of at least 1. -/
theorem listLoop_mem (fs : SysFs) :
    ∀ (es : List String) (acc out : List Device),
      listLoop fs acc es = .ok out → ∀ d ∈ out,
        d ∈ acc ∨
        (1 ≤ d.bytes ∧
          ∃ s, readToString fs ("/sys/block/" ++ d.name ++ "/hidden") = .ok s ∧
            (trim s == "1") = false) := by
  intro es
  induction es with
  | nil =>
    intro acc out h d hd
    simp only [listLoop] at h
    cases h
    exact .inl hd
  | cons e rest ih =>
    intro acc out h d hd
    simp only [listLoop] at h
    split at h
    · exact absurd h (by simp)
    · rename_i hidden hhid
      split at h
      · exact ih acc out h d hd
      · rename_i hnot1
        split at h
        · exact absurd h (by simp)
        · split at h
          · exact absurd h (by simp)
          · split at h
            · exact absurd h (by simp)
            · split at h
              · exact absurd h (by simp)
              · split at h
                · exact absurd h (by simp)
                · rename_i bytes hbytes
                  split at h
                  · exact ih acc out h d hd
                  · rename_i hlt
                    rcases ih _ out h d hd with hacc | hP
                    · rcases List.mem_append.mp hacc with h1 | h2
                      · exact .inl h1
                      · have hde : d = { name := e, bytes := bytes } := by
                          simpa using h2
                        subst hde
                        refine .inr ⟨show 1 ≤ bytes by omega, hidden, hhid, ?_⟩
                        simpa using hnot1
                    · exact .inr hP

/-- The enumeration loop of `Device::list` processes an appended entry list
left to right: the first abort in the prefix aborts the whole run, and
otherwise the suffix continues from the prefix's accumulator. -/
theorem listLoop_append (fs : SysFs) :
    ∀ (pre rest : List String) (acc : List Device),
      listLoop fs acc (pre ++ rest) =
        match listLoop fs acc pre with
        | .ok acc2 => listLoop fs acc2 rest
        | .error er => .error er := by
  intro pre
  induction pre with
  | nil =>
    intro rest acc
    simp [listLoop]
  | cons e pre ih =>
    intro rest acc
    simp only [List.cons_append]
    cases h1 : readToString fs ("/sys/block/" ++ e ++ "/hidden") with
    | error er => simp [listLoop, h1]
    | ok hidden =>
      cases hb : trim hidden == "1"
      · cases h2 : readToString fs ("/sys/block/" ++ e ++ "/size") with
        | error er => simp [listLoop, h1, hb, h2]
        | ok sizeRaw =>
          cases h3 : parseNat (trim sizeRaw) with
          | none => simp [listLoop, h1, hb, h2, h3]
          | some n =>
            cases h4 : readToString fs ("/sys/block/" ++ e ++ "/dev") with
            | error er => simp [listLoop, h1, hb, h2, h3, h4]
            | ok devRaw =>
              cases h5 : readToString fs ("/sys/dev/block/" ++ trim devRaw ++ "/size") with
              | error er => simp [listLoop, h1, hb, h2, h3, h4, h5]
              | ok bytesRaw =>
                cases h6 : parseNat (trim bytesRaw) with
                | none => simp [listLoop, h1, hb, h2, h3, h4, h5, h6]
                | some b =>
                  by_cases h7 : b < 1
                  · simp [listLoop, h1, hb, h2, h3, h4, h5, h6, h7, ih]
                  · simp [listLoop, h1, hb, h2, h3, h4, h5, h6, h7, ih]
      · simp [listLoop, h1, hb, ih]

/-- The sibling loop of `Device::partitions` never extends its
accumulator. -/
theorem partitionsLoop_ok (fs : SysFs) (dir : String) :
    ∀ (es : List String) (acc l : List Device),
      partitionsLoop fs dir acc es = .ok l → l = acc := by
  intro es
  induction es with
  | nil =>
    intro acc l h
    simp only [partitionsLoop] at h
    cases h
    rfl
  | cons e rest ih =>
    intro acc l h
    simp only [partitionsLoop] at h
    split at h
    · exact absurd h (by simp)
    · split at h
      · split at h
        · exact ih acc l h
        · exact absurd h (by simp)
      · exact ih acc l h
      · exact absurd h (by simp)

/-- `Device::partitions` can only ever succeed with the empty list: the
parsed partition indices are discarded and the `partitions` vector is never
pushed to. -/
theorem partitions_result_always_empty (fs : SysFs) (d : Device) (l : List Device)
    (h : Device.partitions fs d = .ok l) : l = [] := by
  unfold Device.partitions at h
  split at h
  · exact absurd h (by simp)
  · split at h
    · exact absurd h (by simp)
    · split at h
      · exact absurd h (by simp)
      · exact partitionsLoop_ok fs _ _ [] l h

end ArchInstaller

namespace ArchInstaller

/-! ## Claim C1 — the PartitionDisk layout -/

/-- Claim C1 (counterexample): the parted script of the PartitionDisk step
requests 2 partitions, not the 3 the claim describes — there is no
2GiB-3GiB persistent partition and no separate 3GiB-100% root partition. -/
theorem parted_script_not_three_partitions :
    (partedParts (tokenize partedScript)).length = 2 ∧
    (partedParts (tokenize partedScript)).length ≠ 3 := by
  decide

/-- Claim C1 (amended): the PartitionDisk step creates a GPT label and a
two-partition layout — partition 1 an ESP of type fat32 from 1MiB (spelled
"1Mib" in the source) to 2GiB with the boot flag set, partition 2 an ext4
partition from 2GiB to 100% of the device — so resolving the requested
topology yields exactly 2 partitions. -/
theorem parted_script_two_partition_layout :
    partedLabels (tokenize partedScript) = ["gpt"] ∧
    partedParts (tokenize partedScript) =
      [{ pname := "ESP", fstype := "fat32", start := "1Mib", stop := "2GiB" },
       { pname := "primary", fstype := "ext4", start := "2GiB", stop := "100%" }] ∧
    partedSets (tokenize partedScript) =
      [{ num := "1", flag := "boot", state := "on" }] ∧
    (∀ device : String, partedCmd device = ["parted", "--script", device, "--", partedScript]) := by
  refine ⟨by decide, by decide, by decide, fun _ => rfl⟩

/-! ## Claim C2 — order of preconditions, cleanup and mutation -/

/-- Claim C2 (counterexample): in the post-panic statement sequence of `run`
with `clean = true`, the three state-mutating cleanup commands (unmounts and
pool destruction) are performed strictly before the EFI boot-mode check, so
AssertPreconditions does not precede the Cleanup step. -/
theorem cleanup_precedes_boot_check_cex :
    (postPanicTrace true true "/dev/sda" (fun _ => true)).take 4 =
      [Step.execCmd ["umount", "/mnt/boot"], Step.execCmd ["zfs", "umount", "-a"],
       Step.execCmd ["zpool", "destroy", "zroot"], Step.assertEfi] := by
  rfl

/-- Claim C2 (amended): in the written (post-panic, unreachable) sequence
of `run`, everything before the EFI boot-mode check is exactly the optional
cleanup block — so Cleanup precedes the precondition checks, while the
module-dependency check and the partitioning command only ever occur after
the boot-mode check. -/
theorem preconditions_follow_cleanup (clean efiOk : Bool) (device : String)
    (sp : List String → Bool) :
    (postPanicTrace clean efiOk device sp).takeWhile notAssertEfi =
      (if clean then cleanupCmds.map Step.execCmd else []) ∧
    Step.execCmd (partedCmd device) ∉
      (postPanicTrace clean efiOk device sp).takeWhile notAssertEfi ∧
    Step.execCmd modprobeCmd ∉
      (postPanicTrace clean efiOk device sp).takeWhile notAssertEfi := by
  have h1 : (postPanicTrace clean efiOk device sp).takeWhile notAssertEfi =
      (if clean then cleanupCmds.map Step.execCmd else []) := by
    cases clean <;> rfl
  refine ⟨h1, ?_, ?_⟩ <;> rw [h1] <;> cases clean <;>
    simp [cleanupCmds, partedCmd, modprobeCmd]

/-! ## Claim C3 — the unconditional panic -/

/-- Claim C3: whenever the configuration inputs resolve and `dry_run` is
off, `run` panics with "safety third!" having performed no step at all — no
cleanup, no EFI check, no external command. -/
theorem run_panics_safety_third (opt : Opt) (env : Env) (cfg : ResolvedCfg)
    (hres : resolveInputs opt env = .ok cfg) (hdry : opt.dry_run = false) :
    run opt env = (.panicked "safety third!", ([] : List Step)) := by
  unfold run
  rw [hres, hdry]
  rfl

/-- Claim C3 (witness): a fully supplied option set with `dry_run = false`
resolves and panics. -/
theorem run_panics_safety_third_witness :
    run optFull envNoTty = (.panicked "safety third!", ([] : List Step)) :=
  run_panics_safety_third optFull envNoTty
    { filesystem := .zfs, clean := false, hostname := "arch", wifi := false,
      user := "user1", device := "/dev/sda" } (by rfl) (by rfl)

/-! ## Claim C4 — partition resolution drops every partition -/

/-- Claim C4: on a device with one sibling entry whose partition-index
attribute reads "1", `Device::partitions` still returns the empty list: the
parsed index is discarded and the result vector is never pushed to. -/
theorem partitions_drops_indexed_sibling :
    Device.partitions partFs { name := "sda", bytes := 0 } = .ok [] := by
  decide

/-! ## Claim C5 — missing attributes abort enumeration -/

/-- Claim C5 (counterexample): with entry `sda` lacking its `hidden`
attribute and entry `sdb` fully populated, `Device::list` aborts with
`NotFound` instead of skipping `sda` and returning `sdb`. -/
theorem missing_attribute_aborts_enumeration_cex :
    Device.list hiddenMissingFs = .error .notFound := by
  decide

/-- Claim C5 (amended): every failed per-entry attribute read — a missing
attribute included — aborts the whole enumeration with that error.  The
first six conjuncts cover each of the four per-entry reads (hidden flag,
declared size, device identifier, identifier-keyed size) and the two size
parses; the next three show an entry is skipped exactly when its hidden
attribute trims to "1" or its resolved size is below 1, and is otherwise
kept — so no entry is ever skipped on a read failure; the last conjunct
lifts any of those aborts, at any entry position the loop reaches, to
`Device::list` itself. -/
theorem attribute_read_failure_aborts (fs : SysFs) :
    (∀ (e : String) (rest : List String) (acc : List Device) (er : RErr),
        readToString fs ("/sys/block/" ++ e ++ "/hidden") = .error er →
        listLoop fs acc (e :: rest) = .error er) ∧
    (∀ (e : String) (rest : List String) (acc : List Device) (er : RErr)
        (hidden : String),
        readToString fs ("/sys/block/" ++ e ++ "/hidden") = .ok hidden →
        (trim hidden == "1") = false →
        readToString fs ("/sys/block/" ++ e ++ "/size") = .error er →
        listLoop fs acc (e :: rest) = .error er) ∧
    (∀ (e : String) (rest : List String) (acc : List Device)
        (hidden sizeRaw : String),
        readToString fs ("/sys/block/" ++ e ++ "/hidden") = .ok hidden →
        (trim hidden == "1") = false →
        readToString fs ("/sys/block/" ++ e ++ "/size") = .ok sizeRaw →
        parseNat (trim sizeRaw) = none →
        listLoop fs acc (e :: rest) = .error (.parseFail (trim sizeRaw))) ∧
    (∀ (e : String) (rest : List String) (acc : List Device) (er : RErr)
        (hidden sizeRaw : String) (n : Nat),
        readToString fs ("/sys/block/" ++ e ++ "/hidden") = .ok hidden →
        (trim hidden == "1") = false →
        readToString fs ("/sys/block/" ++ e ++ "/size") = .ok sizeRaw →
        parseNat (trim sizeRaw) = some n →
        readToString fs ("/sys/block/" ++ e ++ "/dev") = .error er →
        listLoop fs acc (e :: rest) = .error er) ∧
    (∀ (e : String) (rest : List String) (acc : List Device) (er : RErr)
        (hidden sizeRaw : String) (n : Nat) (devRaw : String),
        readToString fs ("/sys/block/" ++ e ++ "/hidden") = .ok hidden →
        (trim hidden == "1") = false →
        readToString fs ("/sys/block/" ++ e ++ "/size") = .ok sizeRaw →
        parseNat (trim sizeRaw) = some n →
        readToString fs ("/sys/block/" ++ e ++ "/dev") = .ok devRaw →
        readToString fs ("/sys/dev/block/" ++ trim devRaw ++ "/size") = .error er →
        listLoop fs acc (e :: rest) = .error er) ∧
    (∀ (e : String) (rest : List String) (acc : List Device)
        (hidden sizeRaw : String) (n : Nat) (devRaw bytesRaw : String),
        readToString fs ("/sys/block/" ++ e ++ "/hidden") = .ok hidden →
        (trim hidden == "1") = false →
        readToString fs ("/sys/block/" ++ e ++ "/size") = .ok sizeRaw →
        parseNat (trim sizeRaw) = some n →
        readToString fs ("/sys/block/" ++ e ++ "/dev") = .ok devRaw →
        readToString fs ("/sys/dev/block/" ++ trim devRaw ++ "/size") = .ok bytesRaw →
        parseNat (trim bytesRaw) = none →
        listLoop fs acc (e :: rest) = .error (.parseFail (trim bytesRaw))) ∧
    (∀ (e : String) (rest : List String) (acc : List Device) (hidden : String),
        readToString fs ("/sys/block/" ++ e ++ "/hidden") = .ok hidden →
        (trim hidden == "1") = true →
        listLoop fs acc (e :: rest) = listLoop fs acc rest) ∧
    (∀ (e : String) (rest : List String) (acc : List Device)
        (hidden sizeRaw : String) (n : Nat) (devRaw bytesRaw : String) (b : Nat),
        readToString fs ("/sys/block/" ++ e ++ "/hidden") = .ok hidden →
        (trim hidden == "1") = false →
        readToString fs ("/sys/block/" ++ e ++ "/size") = .ok sizeRaw →
        parseNat (trim sizeRaw) = some n →
        readToString fs ("/sys/block/" ++ e ++ "/dev") = .ok devRaw →
        readToString fs ("/sys/dev/block/" ++ trim devRaw ++ "/size") = .ok bytesRaw →
        parseNat (trim bytesRaw) = some b →
        b < 1 →
        listLoop fs acc (e :: rest) = listLoop fs acc rest) ∧
    (∀ (e : String) (rest : List String) (acc : List Device)
        (hidden sizeRaw : String) (n : Nat) (devRaw bytesRaw : String) (b : Nat),
        readToString fs ("/sys/block/" ++ e ++ "/hidden") = .ok hidden →
        (trim hidden == "1") = false →
        readToString fs ("/sys/block/" ++ e ++ "/size") = .ok sizeRaw →
        parseNat (trim sizeRaw) = some n →
        readToString fs ("/sys/block/" ++ e ++ "/dev") = .ok devRaw →
        readToString fs ("/sys/dev/block/" ++ trim devRaw ++ "/size") = .ok bytesRaw →
        parseNat (trim bytesRaw) = some b →
        ¬ b < 1 →
        listLoop fs acc (e :: rest) =
          listLoop fs (acc ++ [{ name := e, bytes := b }]) rest) ∧
    (∀ (entries pre rest : List String) (e : String) (acc2 : List Device)
        (er : RErr),
        readDir fs "/sys/block" = .ok entries →
        entries = pre ++ e :: rest →
        listLoop fs [] pre = .ok acc2 →
        listLoop fs acc2 (e :: rest) = .error er →
        Device.list fs = .error er) := by
  refine ⟨?_, ?_, ?_, ?_, ?_, ?_, ?_, ?_, ?_, ?_⟩
  · intro e rest acc er h1
    simp [listLoop, h1]
  · intro e rest acc er hidden h1 hb h2
    simp [listLoop, h1, hb, h2]
  · intro e rest acc hidden sizeRaw h1 hb h2 h3
    simp [listLoop, h1, hb, h2, h3]
  · intro e rest acc er hidden sizeRaw n h1 hb h2 h3 h4
    simp [listLoop, h1, hb, h2, h3, h4]
  · intro e rest acc er hidden sizeRaw n devRaw h1 hb h2 h3 h4 h5
    simp [listLoop, h1, hb, h2, h3, h4, h5]
  · intro e rest acc hidden sizeRaw n devRaw bytesRaw h1 hb h2 h3 h4 h5 h6
    simp [listLoop, h1, hb, h2, h3, h4, h5, h6]
  · intro e rest acc hidden h1 hb
    simp [listLoop, h1, hb]
  · intro e rest acc hidden sizeRaw n devRaw bytesRaw b h1 hb h2 h3 h4 h5 h6 h7
    simp [listLoop, h1, hb, h2, h3, h4, h5, h6, h7]
  · intro e rest acc hidden sizeRaw n devRaw bytesRaw b h1 hb h2 h3 h4 h5 h6 h7
    simp [listLoop, h1, hb, h2, h3, h4, h5, h6, h7]
  · intro entries pre rest e acc2 er hdir hsplit hpre habort
    subst hsplit
    simp only [Device.list, hdir, listLoop_append fs pre (e :: rest) [], hpre, habort]

/-- Claim C5 (witness): a non-NotFound io failure on an entry's hidden
attribute aborts the whole enumeration with that same error, via the
per-read abort conjunct lifted through the any-position conjunct. -/
theorem attribute_read_failure_aborts_witness :
    Device.list ioErrFs = .error (.other "input output error") :=
  (attribute_read_failure_aborts ioErrFs).2.2.2.2.2.2.2.2.2
    ["sda"] [] [] "sda" [] (.other "input output error") rfl rfl rfl
    ((attribute_read_failure_aborts ioErrFs).1 "sda" [] []
      (.other "input output error") rfl)

/-! ## Claim C6 — the command executor's failure condition -/

/-- Claim C6: `exec` fails exactly when the command list is empty (the
missing-command error) or the spawn itself fails; any spawned process's
captured output is returned as-is, so a non-zero exit status alone never
produces an error. -/
theorem exec_fails_iff_empty_or_spawn_failure :
    (∀ spawn : Spawner, exec spawn [] = .error "missing command") ∧
    (∀ (spawn : Spawner) (c : String) (args : List String) (out : Output),
        spawn c args = .ok out → exec spawn (c :: args) = .ok out) ∧
    (∀ (spawn : Spawner) (cmd : List String),
        (∃ e, exec spawn cmd = .error e) ↔
          (cmd = [] ∨ ∃ c args e, cmd = c :: args ∧ spawn c args = .error e)) := by
  refine ⟨fun _ => rfl, ?_, ?_⟩
  · intro spawn c args out h
    simp [exec, h]
  · intro spawn cmd
    cases cmd with
    | nil => simp [exec]
    | cons c args =>
      cases h : spawn c args with
      | ok out => simp [exec, h]
      | error e =>
        simp [exec, h]
        exact ⟨c, args, ⟨rfl, rfl⟩, e, h⟩

/-- Claim C6 (witness): a succeeding spawn's output — here with non-empty
stdout — comes back unchanged. -/
theorem exec_fails_iff_empty_or_spawn_failure_witness :
    exec spawnEcho ["echo", "true"] =
      .ok { success := true, stdout := "true\n", stderr := "" } :=
  exec_fails_iff_empty_or_spawn_failure.2.1 spawnEcho "echo" ["true"]
    { success := true, stdout := "true\n", stderr := "" } rfl

/-! ## Claim C7 — the FAT32 formatter's target argument -/

/-- Claim C7: `FAT32::init` passes `"of=" ++ path`, not the partition's
device path itself, as the formatter's target argument (a dd-style argument
that `mkfs.vfat` does not understand), while the failure error does carry
the device path. -/
theorem fat32_target_argument_is_dd_style :
    fat32InitCmd { name := "sda1", bytes := 0 } =
      ["mkfs.vfat", "-F32", "of=/dev/sda1"] ∧
    "of=/dev/sda1" ≠ "/dev/sda1" ∧
    fat32Init spawnAllFail { name := "sda1", bytes := 0 } =
      .error "error formatting filesystem /dev/sda1 as FAT32" := by
  decide

/-! ## Claim C8 — enumeration order and filtering -/

/-- Claim C8 (counterexample): `devices()` (main.rs) sorts by the full
`(path, size)` tuple descending, i.e. primarily by path name: with
`nvme0n1` of size 100 and `sda` of size 5 it returns `sda` first, so the
result is not sorted by byteSize descending. -/
theorem devices_sorts_by_path_not_size_cex :
    devices twoDevFs = .ok [("/dev/sda", 5), ("/dev/nvme0n1", 100)] ∧
    ¬ ([("/dev/sda", 5), ("/dev/nvme0n1", 100)] : List (String × Nat)).Pairwise
        (fun a b => b.2 ≤ a.2) := by
  constructor
  · decide
  · decide

/-- Claim C8 (amended): `Device::list` (device.rs) does satisfy the claim:
its result is the stable byteSize-descending sort of the devices collected
in discovery order — sorted descending, ties keeping discovery order (the
filter by any fixed size is unchanged) — and every returned device was
neither hidden nor of zero resolved size. -/
theorem device_list_sorted_and_filters (fs : SysFs) (entries : List String)
    (raw : List Device)
    (hdir : readDir fs "/sys/block" = .ok entries)
    (hloop : listLoop fs [] entries = .ok raw) :
    Device.list fs = .ok (List.insertionSort rBytesDesc raw) ∧
    (List.insertionSort rBytesDesc raw).Pairwise rBytesDesc ∧
    (∀ n : Nat,
      (List.insertionSort rBytesDesc raw).filter (fun d => d.bytes == n) =
        raw.filter (fun d => d.bytes == n)) ∧
    (∀ d ∈ List.insertionSort rBytesDesc raw,
      1 ≤ d.bytes ∧
      ∃ s, readToString fs ("/sys/block/" ++ d.name ++ "/hidden") = .ok s ∧
        (trim s == "1") = false) := by
  refine ⟨?_, ?_, ?_, ?_⟩
  · simp only [Device.list, hdir, hloop]
  · exact List.sorted_insertionSort rBytesDesc raw
  · intro n
    refine filter_insertionSort rBytesDesc (fun d => d.bytes == n) ?_ raw
    intro a b ha hb
    have ha' : a.bytes = n := by simpa using ha
    have hb' : b.bytes = n := by simpa using hb
    unfold rBytesDesc
    omega
  · intro d hd
    have hd' : d ∈ raw := (List.mem_insertionSort rBytesDesc).mp hd
    rcases listLoop_mem fs entries [] raw hloop d hd' with h | h
    · simp at h
    · exact h

/-- Claim C8 (witness): on a tree with two visible devices collected as
`nvme0n1` (100) then `sda` (5), `Device::list` satisfies all four amended
conclusions. -/
theorem device_list_sorted_and_filters_witness :
    Device.list twoDevFs =
      .ok (List.insertionSort rBytesDesc
        [{ name := "nvme0n1", bytes := 100 }, { name := "sda", bytes := 5 }]) ∧
    (List.insertionSort rBytesDesc
      [{ name := "nvme0n1", bytes := 100 }, { name := "sda", bytes := 5 }]).Pairwise rBytesDesc ∧
    (∀ n : Nat,
      (List.insertionSort rBytesDesc
        [{ name := "nvme0n1", bytes := 100 }, { name := "sda", bytes := 5 }]).filter
          (fun d => d.bytes == n) =
        ([{ name := "nvme0n1", bytes := 100 }, { name := "sda", bytes := 5 }] :
          List Device).filter (fun d => d.bytes == n)) ∧
    (∀ d ∈ List.insertionSort rBytesDesc
        [{ name := "nvme0n1", bytes := 100 }, { name := "sda", bytes := 5 }],
      1 ≤ d.bytes ∧
      ∃ s, readToString twoDevFs ("/sys/block/" ++ d.name ++ "/hidden") = .ok s ∧
        (trim s == "1") = false) :=
  device_list_sorted_and_filters twoDevFs ["nvme0n1", "sda"]
    [{ name := "nvme0n1", bytes := 100 }, { name := "sda", bytes := 5 }]
    (by rfl) (by decide)

/-! ## Claim C9 — ZFS init wipes before creating the pool -/

/-- Claim C9: `ZFS::init` always issues the 512-byte-block, 20480-count
(10 MiB) random overwrite of the partition's device path first; the
`zroot` pool-creation command (with no default mountpoint, `-m none`) is
issued exactly when the overwrite process ran and succeeded, and any
overwrite failure ends the call with an error and no pool creation. -/
theorem zfs_init_wipes_then_creates_pool (spawn : Spawner) (partition : Device) :
    (∃ rest, (zfsInit spawn partition).2 = ddCmd partition :: rest) ∧
    ddCmd partition =
      ["dd", "if=/dev/urandom", "of=" ++ partition.dev, "bs=512", "count=20480"] ∧
    512 * 20480 = 10 * 1024 * 1024 ∧
    zpoolCreateCmd partition =
      ["zpool", "create", "-f", "zroot", "-m", "none", partition.dev] ∧
    (∀ out, exec spawn (ddCmd partition) = .ok out → out.success = true →
      (zfsInit spawn partition).2 = [ddCmd partition, zpoolCreateCmd partition]) ∧
    (∀ out, exec spawn (ddCmd partition) = .ok out → out.success = false →
      zfsInit spawn partition =
        (.error ("error using dd to overwrite beginning of " ++ partition.dev),
         [ddCmd partition])) ∧
    (∀ e, exec spawn (ddCmd partition) = .error e →
      zfsInit spawn partition = (.error e, [ddCmd partition])) := by
  refine ⟨?_, rfl, rfl, rfl, ?_, ?_, ?_⟩
  · cases h : exec spawn (ddCmd partition) with
    | error e => exact ⟨[], by simp [zfsInit, h]⟩
    | ok out =>
      cases hs : out.success
      · exact ⟨[], by simp [zfsInit, h, hs]⟩
      · cases hz : exec spawn (zpoolCreateCmd partition) with
        | error e => exact ⟨[zpoolCreateCmd partition], by simp [zfsInit, h, hs, hz]⟩
        | ok out2 =>
          cases hs2 : out2.success
          · exact ⟨[zpoolCreateCmd partition], by simp [zfsInit, h, hs, hz, hs2]⟩
          · exact ⟨[zpoolCreateCmd partition], by simp [zfsInit, h, hs, hz, hs2]⟩
  · intro out h hs
    cases hz : exec spawn (zpoolCreateCmd partition) with
    | error e => simp [zfsInit, h, hs, hz]
    | ok out2 => cases hs2 : out2.success <;> simp [zfsInit, h, hs, hz, hs2]
  · intro out h hs
    simp [zfsInit, h, hs]
  · intro e h
    simp [zfsInit, h]

/-- Claim C9 (witness): when every process exits with a failure status, the
dd overwrite fails and `ZFS::init` stops after the single dd command. -/
theorem zfs_init_wipes_then_creates_pool_witness :
    zfsInit spawnAllFail { name := "sda3", bytes := 0 } =
      (.error ("error using dd to overwrite beginning of " ++
        Device.dev { name := "sda3", bytes := 0 }),
       [ddCmd { name := "sda3", bytes := 0 }]) :=
  (zfs_init_wipes_then_creates_pool spawnAllFail
      { name := "sda3", bytes := 0 }).2.2.2.2.2.1
    { success := false, stdout := "", stderr := "" } rfl rfl

/-! ## Claim C10 — the backend constructor accepts only "zfs" -/

/-- Claim C10: `filesystem::from_str` yields a backend only for the exact
string "zfs"; every other string, "ext4" and "fat32" included, fails with
the "unknown fs" error. -/
theorem from_str_accepts_only_zfs :
    from_str "zfs" = .ok .zfs ∧
    from_str "ext4" = .error "unknown fs" ∧
    from_str "fat32" = .error "unknown fs" ∧
    (∀ s : String, s ≠ "zfs" → from_str s = .error "unknown fs") := by
  refine ⟨rfl, rfl, rfl, fun s hs => ?_⟩
  unfold from_str
  split
  · simp_all
  · rfl

/-- Claim C10 (witness): "btrfs" is rejected. -/
theorem from_str_accepts_only_zfs_witness :
    from_str "btrfs" = .error "unknown fs" :=
  from_str_accepts_only_zfs.2.2.2 "btrfs" (by decide)

end ArchInstaller
